import Mathlib

/-!
Shallow embedding of `src/production_backend.py` (a small Flask backend for a
chrome-extension workflow recorder) and proofs about its core logic: the
in-memory workflow store (`save_workflow`, `get_workflows`), the analytics
aggregation (`get_analytics`) and the field classifier / suggestion lookup
(`get_ai_suggestions`).

Modelling conventions:
* JSON-ish values are modelled by `Val` (strings, arrays, string-keyed
  objects).  Numbers, booleans and null are not distinguished by any of the
  code paths under study (they would behave as opaque atoms, like `Val.str`),
  so they are omitted from the value universe.
* Python dicts are association lists with unique keys; `List.lookup` returns
  the first binding, and `dictSet` models `d[k] = v` (update in place keeps
  the key's position, a new key is appended), exactly Python's insertion-order
  semantics.
* Python code paths that would raise a `TypeError`/`AttributeError` inside the
  route's `try` block (and hence answer HTTP 500 leaving the store untouched)
  are modelled by the `internalError` outcome in `save_workflow`; in the
  read-only analytics the few such spots (a non-object `metadata` value, a
  non-sized `steps` value) are totalized with a neutral value, noted locally.
* Python float arithmetic is modelled by exact rationals.  `round(x, 1)`
  is modelled by `round1` below; Python's tie behaviour on floats (banker's
  rounding on the binary representation) differs from `round` only on exact
  ties, which no claim exercises.
-/

/-- JSON-ish values stored in workflow documents. -/
inductive Val where
  | str (s : String)
  | arr (xs : List Val)
  | obj (fields : List (String × Val))

mutual

def Val.decEq : (a b : Val) → Decidable (a = b)
  | .str a, .str b =>
    match String.decEq a b with
    | isTrue h => isTrue (by rw [h])
    | isFalse h => isFalse (by intro hc; cases hc; exact h rfl)
  | .arr xs, .arr ys =>
    match Val.decEqList xs ys with
    | isTrue h => isTrue (by rw [h])
    | isFalse h => isFalse (by intro hc; cases hc; exact h rfl)
  | .obj xs, .obj ys =>
    match Val.decEqObj xs ys with
    | isTrue h => isTrue (by rw [h])
    | isFalse h => isFalse (by intro hc; cases hc; exact h rfl)
  | .str _, .arr _ => isFalse (by intro hc; cases hc)
  | .str _, .obj _ => isFalse (by intro hc; cases hc)
  | .arr _, .str _ => isFalse (by intro hc; cases hc)
  | .arr _, .obj _ => isFalse (by intro hc; cases hc)
  | .obj _, .str _ => isFalse (by intro hc; cases hc)
  | .obj _, .arr _ => isFalse (by intro hc; cases hc)

def Val.decEqList : (a b : List Val) → Decidable (a = b)
  | [], [] => isTrue rfl
  | [], _ :: _ => isFalse (by intro hc; cases hc)
  | _ :: _, [] => isFalse (by intro hc; cases hc)
  | x :: xs, y :: ys =>
    match Val.decEq x y, Val.decEqList xs ys with
    | isTrue h1, isTrue h2 => isTrue (by rw [h1, h2])
    | isFalse h1, _ => isFalse (by intro hc; cases hc; exact h1 rfl)
    | _, isFalse h2 => isFalse (by intro hc; cases hc; exact h2 rfl)

def Val.decEqObj : (a b : List (String × Val)) → Decidable (a = b)
  | [], [] => isTrue rfl
  | [], _ :: _ => isFalse (by intro hc; cases hc)
  | _ :: _, [] => isFalse (by intro hc; cases hc)
  | (k, v) :: xs, (l, w) :: ys =>
    match String.decEq k l, Val.decEq v w, Val.decEqObj xs ys with
    | isTrue h0, isTrue h1, isTrue h2 => isTrue (by rw [h0, h1, h2])
    | isFalse h0, _, _ => isFalse (by intro hc; cases hc; exact h0 rfl)
    | _, isFalse h1, _ => isFalse (by intro hc; cases hc; exact h1 rfl)
    | _, _, isFalse h2 => isFalse (by intro hc; cases hc; exact h2 rfl)

end

instance : DecidableEq Val := Val.decEq

/-- A Python dict, as an insertion-ordered association list with unique keys. -/
abbrev Dict := List (String × Val)

/-- Python `d[k] = v`: an existing key keeps its position, a new key is
appended at the end (Python 3.7+ dict insertion-order semantics). -/
def dictSet (d : Dict) (k : String) (v : Val) : Dict :=
  if d.any (fun p => decide (p.1 = k)) then
    d.map (fun p => if p.1 = k then (k, v) else p)
  else d ++ [(k, v)]

/-- Python `d.get(k, v₀)`. -/
def dictGetD (d : Dict) (k : String) (v₀ : Val) : Val :=
  (List.lookup k d).getD v₀

/-- Outcome of the `/api/workflows/save` route: success with the assigned
workflow id, the 400 "Invalid request data" answer, or the 500 answer. -/
inductive SaveResp where
  | ok (workflow_id : String)
  | invalidInput
  | internalError
  deriving DecidableEq

/-- The `save_workflow` route of `production_backend.py`.  `store` is the
`workflows_storage` list, `data` is `request.get_json()` (`none` for a
null body), `now` is `datetime.utcnow().isoformat()`.  Returns the storage
after the call together with the response.

`if not data or 'workflow' not in data` answers 400: both a null body and a
body lacking the `workflow` key (an empty dict lacks it in particular) take
this branch.  A non-dict `workflow` value makes `workflow_data['id'] = ...`
raise `TypeError`, caught as the 500 answer with the store untouched.

For an accepted object workflow, the entry is appended first (line 60) and
only then does the `logger.info` f-string (lines 62-63) evaluate
`workflow_data.get('metadata', {}).get('domain', 'unknown')`: when the
workflow carries a `metadata` key whose value is not a dict, that second
`.get` raises `AttributeError`, caught as the 500 answer — with the entry
already stored.  This is the one path on which the route reports a failure
after committing (a partial commit). -/
def save_workflow (store : List Dict) (data : Option Dict) (now : String) :
    List Dict × SaveResp :=
  match data with
  | none => (store, .invalidInput)
  | some d =>
    match List.lookup "workflow" d with
    | none => (store, .invalidInput)
    | some (Val.str _) => (store, .internalError)
    | some (Val.arr _) => (store, .internalError)
    | some (Val.obj w) =>
      let w1 := dictSet w "id" (Val.str (Nat.repr (store.length + 1)))
      let w2 := dictSet w1 "saved_at" (Val.str now)
      let w3 := dictSet w2 "source" (dictGetD d "source" (Val.str "chrome_extension"))
      match List.lookup "metadata" w3 with
      | some (Val.str _) => (store ++ [w3], .internalError)
      | some (Val.arr _) => (store ++ [w3], .internalError)
      | _ => (store ++ [w3], .ok (Nat.repr (store.length + 1)))

/-- The `get_workflows` route (`listAll`): the full storage in insertion order
plus its count. -/
def get_workflows (store : List Dict) : List Dict × Nat :=
  (store, store.length)

/-- Processing a sequence of `save_workflow` requests in order, starting from
`store`; a failed request leaves the storage unchanged, exactly as the route
does. -/
def store_after (calls : List (Option Dict × String)) (store : List Dict) :
    List Dict :=
  calls.foldl (fun s c => (save_workflow s c.1 c.2).1) store

/-- An envelope the save route accepts: a non-null body whose `workflow` key
holds an object. -/
def validEnvelope (data : Option Dict) : Prop :=
  ∃ d w, data = some d ∧ List.lookup "workflow" d = some (Val.obj w)

/-- Python `w.get('metadata', {})`.  A present non-object `metadata` value
would raise `AttributeError` in the route (answered as HTTP 500); that case is
totalized to the empty object, so the model covers all non-raising stores. -/
def getMeta (w : Dict) : Dict :=
  match List.lookup "metadata" w with
  | some (Val.obj m) => m
  | _ => []

/-- Python `w.get('metadata', {}).get('domain')`, as written in the filter of
`get_analytics` (no default: an absent domain is `None`). -/
def metaDomain (w : Dict) : Option Val :=
  List.lookup "domain" (getMeta w)

/-- Python `w.get('metadata', {}).get('domain', 'unknown')`, the defaulted
form used by the aggregation steps of `get_analytics`. -/
def metaDomainD (w : Dict) : Val :=
  (metaDomain w).getD (Val.str "unknown")

/-- Python `len` on the values it accepts (a non-sized value would raise
`TypeError`, answered as HTTP 500; totalized to 0 — the `steps` values of the
claims are always arrays). -/
def pyLen : Val → Nat
  | .arr xs => xs.length
  | .str s => s.length
  | .obj m => m.length

/-- Python `len(w.get('steps', []))`. -/
def stepsLen (w : Dict) : Nat :=
  pyLen (dictGetD w "steps" (Val.arr []))

/-- The filtering step of `get_analytics`: `domain = request.args.get('domain')`
(`none` when the query parameter is absent), then
`if domain: filtered_workflows = [w for w in workflows_storage if
w.get('metadata', {}).get('domain') == domain]`.  Both an absent parameter and
the empty string are falsy, leaving the storage unfiltered. -/
def filtered_workflows (store : List Dict) (domain : Option String) : List Dict :=
  match domain with
  | none => store
  | some d =>
    if d.isEmpty then store
    else store.filter (fun w => decide (metaDomain w = some (Val.str d)))

/-- The `domain_counts[domain] = domain_counts.get(domain, 0) + 1` update:
an existing key is bumped in place, a new key is appended (dict insertion
order). -/
def bumpCount (m : List (Val × Nat)) (d : Val) : List (Val × Nat) :=
  if m.any (fun p => decide (p.1 = d)) then
    m.map (fun p => if p.1 = d then (p.1, p.2 + 1) else p)
  else m ++ [(d, 1)]

/-- The `domain_counts` aggregation loop of `get_analytics`, over the filtered
workflows in order. -/
def domain_counts (ws : List Dict) : List (Val × Nat) :=
  ws.foldl (fun m w => bumpCount m (metaDomainD w)) []

/-- Python `sorted(domain_counts.items(), key=lambda x: x[1], reverse=True)`:
a stable sort of the count map's entries, descending by count.  Insertion sort
with the relation "count of the left entry is at least the count of the right
entry" is stable, so it computes the same list as Python's stable Timsort. -/
def sorted_counts (ws : List Dict) : List (Val × Nat) :=
  List.insertionSort (fun a b => b.2 ≤ a.2) (domain_counts ws)

/-- The `popular_domains` list of `get_analytics` (entries kept as
domain/count pairs): the sorted count entries, truncated to the top 5. -/
def popular_domains (ws : List Dict) : List (Val × Nat) :=
  (sorted_counts ws).take 5

/-- The `unique_domains` statistic: `len(set(...))` over the defaulted domains
of the filtered workflows. -/
def unique_domains (ws : List Dict) : Nat :=
  ((ws.map metaDomainD).dedup).length

/-- The pre-rounding `avg_steps` value of `get_analytics`: initialized to 0
and overwritten with `sum(len(w.get('steps', [])) ...) / total_workflows`
when the filtered list is non-empty. -/
def avg_steps_val (ws : List Dict) : ℚ :=
  if ws.isEmpty then 0
  else ((ws.map stepsLen).sum : ℚ) / (ws.length : ℚ)

/-- Python `round(x, 1)` on exact values.  (Python rounds binary floats with
ties to even; `round` here rounds ties up.  The two agree away from exact
ties, and no claim exercises a tie.) -/
def round1 (x : ℚ) : ℚ :=
  (round (10 * x) : ℤ) / 10

/-- One entry of the `recent_activity` projection. -/
structure Activity where
  name : Val
  domain : Val
  steps : Nat
  created_at : Val
  deriving DecidableEq

/-- The projection applied to each of the last workflows:
`{'name': w.get('name', 'Unnamed Workflow'), 'domain': ..., 'steps':
len(w.get('steps', [])), 'created_at': w.get('saved_at', 'unknown')}`. -/
def activity_of (w : Dict) : Activity :=
  { name := dictGetD w "name" (Val.str "Unnamed Workflow")
    domain := metaDomainD w
    steps := stepsLen w
    created_at := dictGetD w "saved_at" (Val.str "unknown") }

/-- The `recent_activity` list: Python `filtered_workflows[-10:]` (the last 10
elements, or all of them when fewer) mapped through the projection.  The slice
`xs[-10:]` equals `xs[max(0, len - 10):]`, i.e. `List.drop (len - 10)` with
truncated subtraction. -/
def recent_activity (ws : List Dict) : List Activity :=
  (ws.drop (ws.length - 10)).map activity_of

/-- The analytics record returned by the `get_analytics` route. -/
structure Analytics where
  total_workflows : Nat
  unique_domains : Nat
  avg_steps : ℚ
  popular_domains : List (Val × Nat)
  recent_activity : List Activity
  deriving DecidableEq

/-- The `get_analytics` route of `production_backend.py`, over the current
storage and the optional `domain` query parameter. -/
def get_analytics (store : List Dict) (domain : Option String) : Analytics :=
  let filtered := filtered_workflows store domain
  { total_workflows := filtered.length
    unique_domains := unique_domains filtered
    avg_steps := round1 (avg_steps_val filtered)
    popular_domains := popular_domains filtered
    recent_activity := recent_activity filtered }

/-- Python substring test `needle in haystack` on character lists. -/
def containsSub (needle : List Char) : List Char → Bool
  | [] => needle.isEmpty
  | c :: rest => needle.isPrefixOf (c :: rest) || containsSub needle rest

/-- Python `any(term in selector_lower for term in terms)`. -/
def anyTermIn (terms : List String) (hay : List Char) : Bool :=
  terms.any (fun t => containsSub t.data hay)

/-- Python `s.lower()`, character by character (faithful on ASCII, which is
all the classifier's keywords use). -/
def lowerChars (s : String) : List Char :=
  s.data.map Char.toLower

/-- The field-type classification chain of `get_ai_suggestions`: lower-case
the selector, then the first keyword set with a member occurring as a
substring wins, in the fixed order name, address, phone, email, permit;
`other` when none matches. -/
def classify (field_selector : String) : String :=
  let selector_lower := lowerChars field_selector
  if anyTermIn ["name", "applicant", "owner"] selector_lower then "name"
  else if anyTermIn ["address", "street", "property"] selector_lower then "address"
  else if anyTermIn ["phone", "tel", "mobile"] selector_lower then "phone"
  else if anyTermIn ["email", "mail"] selector_lower then "email"
  else if anyTermIn ["permit", "type", "category"] selector_lower then "permit"
  else "other"

/-- The fixed `suggestions_map` table of `get_ai_suggestions`. -/
def suggestions_map : List (String × List String) :=
  [("address", ["123 Main Street", "456 Oak Avenue", "789 Pine Boulevard"]),
   ("name", ["John Smith", "Jane Doe", "Robert Johnson"]),
   ("phone", ["(555) 123-4567", "555-987-6543", "(305) 555-0123"]),
   ("email", ["user@example.com", "contact@domain.com"]),
   ("permit", ["Building Permit", "Electrical Permit", "Plumbing Permit"])]

/-- Python `suggestions_map.get(field_type, [])`: the suggestion list for a
field-type category, empty for `other` (and any other unknown key). -/
def suggestionsFor (field_type : String) : List String :=
  (List.lookup field_type suggestions_map).getD []

/-- The response record of the `get_ai_suggestions` route. -/
structure SuggResp where
  suggestions : List String
  confidence : ℚ
  source : String
  field_type : String
  deriving DecidableEq

/-- The `get_ai_suggestions` route over a JSON body.  The route reads
`data.get('field_selector', '')`; a non-string selector would raise on
`.lower()` (HTTP 500), totalized here to the empty string. -/
def get_ai_suggestions (data : Dict) : SuggResp :=
  let field_selector :=
    match List.lookup "field_selector" data with
    | some (Val.str s) => s
    | _ => ""
  let ft := classify field_selector
  { suggestions := suggestionsFor ft
    confidence := 0.85
    source := "pattern_analysis"
    field_type := ft }

/-- The `id` field of a stored workflow. -/
def idOf (w : Dict) : Option Val :=
  List.lookup "id" w

/-- Modelled from the spec's words for claim C1: `filterByDomain(domain)`
"returns the ordered subsequence of `listAll()` whose `metadata.domain` equals
`domain` (comparing against `"unknown"` when the field is absent)".  Compared
against the source's `filtered_workflows` below. -/
def filterByDomainSpecC1 (d : String) (ws : List Dict) : List Dict :=
  ws.filter (fun w => decide (metaDomainD w = Val.str d))

/-- Number of occurrences of a domain value in a list of domain values. -/
def countOcc (doms : List Val) (d : Val) : Nat :=
  (doms.filter (fun x => decide (x = d))).length

/-- The position (number of workflows consumed) at which a domain first
reaches a given occurrence count during the aggregation scan. -/
def reachIndex (doms : List Val) (d : Val) (c : Nat) : Nat :=
  (((List.range (doms.length + 1)).filter
    (fun k => decide (countOcc (doms.take k) d = c))).headD 0)

/-- Modelled from the spec's words for claim C3: sort count entries by count
descending, breaking ties by "the order in which each domain first reached
that count as encountered during aggregation".  Compared against the source's
`popular_domains` below. -/
def popularDomainsClaimTie (ws : List Dict) : List (Val × Nat) :=
  let doms := ws.map metaDomainD
  (List.insertionSort
    (fun a b => b.2 < a.2 ∨ (a.2 = b.2 ∧ reachIndex doms a.1 a.2 ≤ reachIndex doms b.1 b.2))
    (domain_counts ws)).take 5

/-- The spec's last-10 window for claim C6: the last 10 elements of the
filtered list in order (all of them when there are fewer). -/
def lastTen (ws : List Dict) : List Dict :=
  (ws.reverse.take 10).reverse

/-- The classifier's keyword table in its fixed priority order, as the spec
lists it for claim C7. -/
def classifyTable : List (List String × String) :=
  [(["name", "applicant", "owner"], "name"),
   (["address", "street", "property"], "address"),
   (["phone", "tel", "mobile"], "phone"),
   (["email", "mail"], "email"),
   (["permit", "type", "category"], "permit")]

/-- Modelled from the spec's words for claim C7: lower-case the input and
return the category of the first keyword set containing a keyword that occurs
as a substring, `other` when none matches.  Compared against the source's
`classify` below. -/
def classifySpec (field_selector : String) : String :=
  let selector_lower := lowerChars field_selector
  match classifyTable.find? (fun p => anyTermIn p.1 selector_lower) with
  | some p => p.2
  | none => "other"

/-- A workflow document whose metadata carries the given domain, used as a
concrete test input. -/
def domainWorkflow (d : String) : Dict :=
  [("metadata", Val.obj [("domain", Val.str d)])]

/-- A save-route envelope carrying a workflow with `n` opaque steps, used as a
concrete test input. -/
def stepsEnvelope (n : Nat) : Option Dict :=
  some [("workflow", Val.obj [("steps", Val.arr (List.replicate n (Val.str "s")))])]

theorem lookup_map_update_of_mem (k : String) (v : Val) (d : Dict)
    (h : d.any (fun p => decide (p.1 = k)) = true) :
    List.lookup k (d.map (fun p => if p.1 = k then (k, v) else p)) = some v := by
  induction d with
  | nil => simp at h
  | cons p d ih =>
    by_cases hp : p.1 = k
    · rw [List.map_cons, if_pos hp]
      simp only [List.lookup, beq_self_eq_true]
    · have h' : d.any (fun p => decide (p.1 = k)) = true := by
        simpa [List.any_cons, hp] using h
      have hb : (k == p.1) = false := beq_eq_false_iff_ne.mpr (Ne.symm hp)
      rw [List.map_cons, if_neg hp]
      simp only [List.lookup, hb]
      exact ih h'

theorem lookup_append_single_of_not_mem (k : String) (v : Val) (d : Dict)
    (h : d.any (fun p => decide (p.1 = k)) = false) :
    List.lookup k (d ++ [(k, v)]) = some v := by
  induction d with
  | nil => simp [List.lookup]
  | cons p d ih =>
    simp only [List.any_cons, Bool.or_eq_false_iff, decide_eq_false_iff_not] at h
    have hb : (k == p.1) = false := beq_eq_false_iff_ne.mpr (Ne.symm h.1)
    rw [List.cons_append]
    simp only [List.lookup, hb]
    exact ih h.2

theorem lookup_dictSet_self (d : Dict) (k : String) (v : Val) :
    List.lookup k (dictSet d k v) = some v := by
  unfold dictSet
  by_cases h : d.any (fun p => decide (p.1 = k)) = true
  · rw [if_pos h]
    exact lookup_map_update_of_mem k v d h
  · rw [if_neg h]
    exact lookup_append_single_of_not_mem k v d (Bool.eq_false_iff.mpr h)

theorem lookup_map_update_ne (k k' : String) (v : Val) (h : k' ≠ k) (d : Dict) :
    List.lookup k' (d.map (fun p => if p.1 = k then (k, v) else p)) =
      List.lookup k' d := by
  induction d with
  | nil => rfl
  | cons p d ih =>
    by_cases hp : p.1 = k
    · have hb : (k' == k) = false := beq_eq_false_iff_ne.mpr h
      have hb' : (k' == p.1) = false := by rw [hp]; exact hb
      rw [List.map_cons, if_pos hp]
      simp only [List.lookup, hb, hb']
      exact ih
    · rw [List.map_cons, if_neg hp]
      cases hpk : (k' == p.1) with
      | true => simp only [List.lookup, hpk]
      | false =>
        simp only [List.lookup, hpk]
        exact ih

theorem lookup_append_single_ne (k k' : String) (v : Val) (h : k' ≠ k) (d : Dict) :
    List.lookup k' (d ++ [(k, v)]) = List.lookup k' d := by
  induction d with
  | nil =>
    have hb : (k' == k) = false := beq_eq_false_iff_ne.mpr h
    simp [List.lookup, hb]
  | cons p d ih =>
    rw [List.cons_append]
    cases hpk : (k' == p.1) with
    | true => simp only [List.lookup, hpk]
    | false =>
      simp only [List.lookup, hpk]
      exact ih

theorem lookup_dictSet_ne (d : Dict) (k k' : String) (v : Val) (h : k' ≠ k) :
    List.lookup k' (dictSet d k v) = List.lookup k' d := by
  unfold dictSet
  by_cases hany : d.any (fun p => decide (p.1 = k)) = true
  · rw [if_pos hany]
    exact lookup_map_update_ne k k' v h d
  · rw [if_neg hany]
    exact lookup_append_single_ne k k' v h d

theorem save_workflow_store_of_valid (store : List Dict) (d : Dict) (w : Dict)
    (now : String) (hw : List.lookup "workflow" d = some (Val.obj w)) :
    (save_workflow store (some d) now).1 =
      store ++
        [dictSet
          (dictSet (dictSet w "id" (Val.str (Nat.repr (store.length + 1))))
            "saved_at" (Val.str now))
          "source" (dictGetD d "source" (Val.str "chrome_extension"))] := by
  simp only [save_workflow, hw]
  split <;> rfl

theorem lookup_metadata_saved (w : Dict) (idv now src : Val) :
    List.lookup "metadata"
        (dictSet (dictSet (dictSet w "id" idv) "saved_at" now) "source" src) =
      List.lookup "metadata" w := by
  rw [lookup_dictSet_ne _ _ _ _ (by decide), lookup_dictSet_ne _ _ _ _ (by decide),
    lookup_dictSet_ne _ _ _ _ (by decide)]

theorem save_workflow_resp_of_valid (store : List Dict) (d : Dict) (w : Dict)
    (now : String) (hw : List.lookup "workflow" d = some (Val.obj w)) :
    (save_workflow store (some d) now).2 =
      match List.lookup "metadata" w with
      | some (Val.str _) => SaveResp.internalError
      | some (Val.arr _) => SaveResp.internalError
      | _ => SaveResp.ok (Nat.repr (store.length + 1)) := by
  simp only [save_workflow, hw, lookup_metadata_saved]
  split <;> rfl

theorem idOf_saved (w : Dict) (n : Nat) (now src : Val) :
    idOf (dictSet (dictSet (dictSet w "id" (Val.str (Nat.repr n))) "saved_at" now)
      "source" src) = some (Val.str (Nat.repr n)) := by
  unfold idOf
  rw [lookup_dictSet_ne _ _ _ _ (by decide), lookup_dictSet_ne _ _ _ _ (by decide),
    lookup_dictSet_self]

theorem map_idOf_store_after (calls : List (Option Dict × String)) :
    ∀ store : List Dict, (∀ c ∈ calls, validEnvelope c.1) →
      (store_after calls store).map idOf =
        store.map idOf ++
          (List.range' (store.length + 1) calls.length).map
            (fun i => some (Val.str (Nat.repr i))) := by
  induction calls with
  | nil =>
    intro store _
    simp [store_after]
  | cons c calls ih =>
    intro store h
    obtain ⟨d, w, hd, hw⟩ := h c (List.mem_cons_self _ _)
    have hrest : ∀ x ∈ calls, validEnvelope x.1 :=
      fun x hx => h x (List.mem_cons_of_mem _ hx)
    have hsplit : store_after (c :: calls) store =
        store_after calls ((save_workflow store c.1 c.2).1) := by
      simp [store_after]
    rw [hsplit, ih _ hrest, hd, save_workflow_store_of_valid store d w c.2 hw]
    simp only [List.map_append, List.length_append, List.length_cons,
      List.length_nil, List.map_cons, List.map_nil, idOf_saved, List.range'_succ]
    rw [List.append_assoc]
    simp

/-- C4: the no-partial-commit part of the claim fails on the code at a
concrete input.  Saving the accepted envelope whose workflow carries
`metadata = "foo"` (a non-dict) appends the entry and only then crashes in
the `logger.info` f-string, so the route answers 500 (`internalError`) —
contradicting its own "Failed to save workflow" message — with the store
grown from 0 to 1 entries and the committed entry carrying the assigned id
`"1"`: a failure response with a commit. -/
theorem C4_partial_commit_bug :
    (save_workflow [] (some [("workflow", Val.obj [("metadata", Val.str "foo")])]) "T").2 =
        SaveResp.internalError
    ∧ (save_workflow [] (some [("workflow", Val.obj [("metadata", Val.str "foo")])]) "T").1.length
        = 1
    ∧ ((save_workflow [] (some [("workflow", Val.obj [("metadata", Val.str "foo")])]) "T").1).map
        idOf = [some (Val.str "1")] := by
  decide

/-- C2: starting from the empty store, any sequence of successful saves gets
the ids `"1", "2", …, "N"` in call order — dense, in order, without gaps or
duplicates — and every successful save computes its id as the store length
before the insert plus one, rendered in decimal. -/
theorem C2_dense_ids :
    (∀ calls : List (Option Dict × String), (∀ c ∈ calls, validEnvelope c.1) →
      (store_after calls []).map idOf =
        (List.range' 1 calls.length).map (fun i => some (Val.str (Nat.repr i))))
    ∧ (∀ (store : List Dict) (data : Option Dict) (now : String) (i : String),
        (save_workflow store data now).2 = SaveResp.ok i →
        i = Nat.repr (store.length + 1)) := by
  constructor
  · intro calls h
    simpa using map_idOf_store_after calls [] h
  · intro store data now i h
    match data with
    | none => simp [save_workflow] at h
    | some d =>
      match hw : List.lookup "workflow" d with
      | none => simp [save_workflow, hw] at h
      | some (Val.str s) => simp [save_workflow, hw] at h
      | some (Val.arr xs) => simp [save_workflow, hw] at h
      | some (Val.obj w) =>
        rw [save_workflow_resp_of_valid store d w now hw] at h
        match hm : List.lookup "metadata" w with
        | none =>
          rw [hm] at h
          simp at h
          exact h.symm
        | some (Val.str s) =>
          rw [hm] at h
          simp at h
        | some (Val.arr xs) =>
          rw [hm] at h
          simp at h
        | some (Val.obj m) =>
          rw [hm] at h
          simp at h
          exact h.symm

/-- Witness for C2 at a concrete input: two valid saves from the empty store
are assigned ids `"1"` and `"2"` in call order. -/
theorem C2_dense_ids_witness :
    (store_after [(some [("workflow", Val.obj [])], "t1"),
        (some [("workflow", Val.obj [])], "t2")] []).map idOf =
      (List.range' 1 2).map (fun i => some (Val.str (Nat.repr i))) :=
  C2_dense_ids.1 _ (by
    intro c hc
    rcases List.mem_cons.mp hc with h | h
    · exact ⟨[("workflow", Val.obj [])], [], by rw [h], rfl⟩
    · rcases List.mem_singleton.mp h with h'
      exact ⟨[("workflow", Val.obj [])], [], by rw [h'], rfl⟩)

/-- C8 counterexample: the round-trip does not leave every originally
submitted field unchanged — a caller-supplied `id` field is overwritten by
the store.  Saving a workflow that arrives with `id = "x"` and reading the
store back yields an entry whose `id` differs from the submitted one. -/
theorem C8_roundtrip_counterexample :
    List.lookup "id"
        (((get_workflows
          (save_workflow [] (some [("workflow", Val.obj [("id", Val.str "x")])]) "T").1).1).getLastD [])
      ≠ List.lookup "id" [("id", Val.str "x")] := by decide

/-- C8 amended: inserting an accepted document and reading the store back
appends exactly one entry that agrees with the submitted workflow on every
field other than `id`, `saved_at` and `source`, while those three are
populated by the store (overwriting any caller-supplied values): `id` is the
store length before the insert plus one, `saved_at` is the insertion
timestamp, and `source` comes from the envelope or its default. -/
theorem C8_roundtrip_amended (store : List Dict) (d : Dict) (w : Dict) (now : String)
    (hw : List.lookup "workflow" d = some (Val.obj w)) :
    ∃ w', (get_workflows (save_workflow store (some d) now).1).1 = store ++ [w']
      ∧ (∀ k, k ≠ "id" → k ≠ "saved_at" → k ≠ "source" →
          List.lookup k w' = List.lookup k w)
      ∧ List.lookup "id" w' = some (Val.str (Nat.repr (store.length + 1)))
      ∧ List.lookup "saved_at" w' = some (Val.str now)
      ∧ List.lookup "source" w' = some (dictGetD d "source" (Val.str "chrome_extension")) := by
  refine ⟨dictSet
      (dictSet (dictSet w "id" (Val.str (Nat.repr (store.length + 1))))
        "saved_at" (Val.str now))
      "source" (dictGetD d "source" (Val.str "chrome_extension")), ?_, ?_, ?_, ?_, ?_⟩
  · rw [save_workflow_store_of_valid store d w now hw]
    rfl
  · intro k h1 h2 h3
    rw [lookup_dictSet_ne _ _ _ _ h3, lookup_dictSet_ne _ _ _ _ h2,
      lookup_dictSet_ne _ _ _ _ h1]
  · rw [lookup_dictSet_ne _ _ _ _ (by decide), lookup_dictSet_ne _ _ _ _ (by decide),
      lookup_dictSet_self]
  · rw [lookup_dictSet_ne _ _ _ _ (by decide), lookup_dictSet_self]
  · rw [lookup_dictSet_self]

/-- Witness for the amended C8 at a concrete input: saving a workflow with a
`name` field from the empty store. -/
theorem C8_roundtrip_amended_witness :
    ∃ w', (get_workflows
        (save_workflow [] (some [("workflow", Val.obj [("name", Val.str "W")])]) "T").1).1 =
          [] ++ [w']
      ∧ (∀ k, k ≠ "id" → k ≠ "saved_at" → k ≠ "source" →
          List.lookup k w' = List.lookup k [("name", Val.str "W")])
      ∧ List.lookup "id" w' = some (Val.str (Nat.repr ((List.length ([] : List Dict)) + 1)))
      ∧ List.lookup "saved_at" w' = some (Val.str "T")
      ∧ List.lookup "source" w' =
          some (dictGetD [("workflow", Val.obj [("name", Val.str "W")])] "source"
            (Val.str "chrome_extension")) :=
  C8_roundtrip_amended [] [("workflow", Val.obj [("name", Val.str "W")])]
    [("name", Val.str "W")] "T" rfl

/-- C1 counterexample: the filtering step compares the raw
`metadata.domain` lookup (with no `"unknown"` default), so a workflow lacking
the domain key is not matched by `filterByDomain("unknown")`, contrary to the
claim's defaulted comparison. -/
theorem C1_filter_counterexample :
    filtered_workflows [[("name", Val.str "w0")]] (some "unknown") = []
    ∧ filterByDomainSpecC1 "unknown" [[("name", Val.str "w0")]] = [[("name", Val.str "w0")]]
    ∧ filtered_workflows [[("name", Val.str "w0")]] (some "unknown")
        ≠ filterByDomainSpecC1 "unknown" [[("name", Val.str "w0")]] := by decide

/-- C1 amended: for every store state and every non-empty domain string `d`
(the filtering step only runs for truthy filters), the filtering step of
`get_analytics` returns exactly the insertion-ordered subsequence of the
stored workflows whose raw `metadata.domain` value equals `d`; a workflow
with an absent `metadata.domain` is compared as `None` and so matches no
domain filter (in particular `filterByDomain("unknown")` excludes workflows
lacking the key). -/
theorem C1_filter_amended (store : List Dict) (d : String) (h : d ≠ "") :
    filtered_workflows store (some d) =
        store.filter (fun w => decide (metaDomain w = some (Val.str d)))
    ∧ (filtered_workflows store (some d)).Sublist store
    ∧ ∀ w, w ∈ filtered_workflows store (some d) ↔
        w ∈ store ∧ metaDomain w = some (Val.str d) := by
  have hne : d.isEmpty = false := by
    cases he : d.isEmpty
    · rfl
    · exact absurd ((String.isEmpty_iff d).mp he) h
  have heq : filtered_workflows store (some d) =
      store.filter (fun w => decide (metaDomain w = some (Val.str d))) := by
    simp [filtered_workflows, hne]
  refine ⟨heq, ?_, ?_⟩
  · rw [heq]
    exact List.filter_sublist store
  · intro w
    rw [heq]
    simp [List.mem_filter]

/-- Witness for the amended C1 at a concrete input: filtering one matching
and one non-matching workflow by the domain `"a"`. -/
theorem C1_filter_amended_witness :
    filtered_workflows [domainWorkflow "a", domainWorkflow "b"] (some "a") =
        [domainWorkflow "a", domainWorkflow "b"].filter
          (fun w => decide (metaDomain w = some (Val.str "a")))
    ∧ (filtered_workflows [domainWorkflow "a", domainWorkflow "b"] (some "a")).Sublist
        [domainWorkflow "a", domainWorkflow "b"]
    ∧ ∀ w, w ∈ filtered_workflows [domainWorkflow "a", domainWorkflow "b"] (some "a") ↔
        w ∈ [domainWorkflow "a", domainWorkflow "b"] ∧ metaDomain w = some (Val.str "a") :=
  C1_filter_amended [domainWorkflow "a", domainWorkflow "b"] "a" (by decide)

/-- C10: calling the analytics with the empty string as the domain filter is
the same as calling it with no filter at all — the empty string is falsy in
the `if domain:` guard, so it never selects workflows whose domain is `""`. -/
theorem C10_empty_filter_is_absent (store : List Dict) :
    get_analytics store (some "") = get_analytics store none := rfl

/-- C6: the `recent_activity` list is exactly the last 10 elements of the
filtered list in insertion order (all of them when fewer), each projected to
its name (default `"Unnamed Workflow"`), domain (default `"unknown"`), step
count and `saved_at` timestamp (default `"unknown"`); its length is
`min 10 total_workflows`. -/
theorem C6_recent_activity_window (store : List Dict) (df : Option String) :
    (get_analytics store df).recent_activity =
        (lastTen (filtered_workflows store df)).map activity_of
    ∧ (get_analytics store df).recent_activity.length =
        min 10 (get_analytics store df).total_workflows := by
  have h1 : ∀ ws : List Dict, ws.drop (ws.length - 10) = lastTen ws := by
    intro ws
    have h := List.rtake_eq_reverse_take_reverse ws 10
    rw [List.rtake] at h
    rw [h, lastTen]
  constructor
  · show recent_activity (filtered_workflows store df) = _
    rw [recent_activity, h1]
  · show (recent_activity (filtered_workflows store df)).length =
      min 10 (filtered_workflows store df).length
    rw [recent_activity, List.length_map, List.length_drop]
    omega

/-- C3 counterexample: with domains arriving in the order B, A, A, B both
domains tie at count 2, and the code's tie-break (dict insertion order, i.e.
the order of each domain's first occurrence) puts B first, while ordering by
the moment each domain first reached its final count would put A first — A
reaches 2 on the third workflow, B only on the fourth. -/
theorem C3_popular_domains_counterexample :
    popular_domains
        [domainWorkflow "B", domainWorkflow "A", domainWorkflow "A", domainWorkflow "B"] =
      [(Val.str "B", 2), (Val.str "A", 2)]
    ∧ popularDomainsClaimTie
        [domainWorkflow "B", domainWorkflow "A", domainWorkflow "A", domainWorkflow "B"] =
      [(Val.str "A", 2), (Val.str "B", 2)]
    ∧ popular_domains
        [domainWorkflow "B", domainWorkflow "A", domainWorkflow "A", domainWorkflow "B"] ≠
      popularDomainsClaimTie
        [domainWorkflow "B", domainWorkflow "A", domainWorkflow "A", domainWorkflow "B"] := by
  decide

/-- C3 amended: `popular_domains` is the 5-entry prefix of a stable
descending sort (by count) of the aggregation map, whose entries stand in the
order each domain was first encountered; hence its length is at most 5, its
counts are non-increasing, its entries come from the aggregation map, and any
two count entries listed in aggregation order with the left count at least
the right one (in particular ties) keep their relative order in the sorted
list. -/
theorem C3_popular_domains_amended (ws : List Dict) :
    (popular_domains ws).length ≤ 5
    ∧ List.Sorted (fun a b : Val × Nat => b.2 ≤ a.2) (popular_domains ws)
    ∧ (popular_domains ws).Subperm (domain_counts ws)
    ∧ (∀ a b : Val × Nat, b.2 ≤ a.2 → [a, b].Sublist (domain_counts ws) →
        [a, b].Sublist (sorted_counts ws)) := by
  haveI : IsTotal (Val × Nat) (fun a b => b.2 ≤ a.2) := ⟨fun a b => Nat.le_total b.2 a.2⟩
  haveI : IsTrans (Val × Nat) (fun a b => b.2 ≤ a.2) := ⟨fun a b c hab hbc => le_trans hbc hab⟩
  refine ⟨?_, ?_, ?_, ?_⟩
  · rw [popular_domains, List.length_take]
    exact min_le_left _ _
  · exact List.Pairwise.sublist (List.take_sublist 5 _)
      (List.sorted_insertionSort _ (domain_counts ws))
  · exact (List.take_sublist 5 (sorted_counts ws)).subperm.trans
      (List.perm_insertionSort _ (domain_counts ws)).subperm
  · intro a b hab hsub
    exact List.pair_sublist_insertionSort hab hsub

/-- Witness for the amended C3 at a concrete input: two distinct domains with
tied counts keep their aggregation order in the sorted count list. -/
theorem C3_popular_domains_amended_witness :
    List.Sublist [((Val.str "A" : Val), 1), ((Val.str "B" : Val), 1)]
      (sorted_counts [domainWorkflow "A", domainWorkflow "B"]) := by
  have h : domain_counts [domainWorkflow "A", domainWorkflow "B"] =
      [(Val.str "A", 1), (Val.str "B", 1)] := by decide
  exact (C3_popular_domains_amended [domainWorkflow "A", domainWorkflow "B"]).2.2.2
    (Val.str "A", 1) (Val.str "B", 1) (by decide)
    (by rw [h])

/-- C5: the analytics `avg_steps` equals the sum of the step counts over the
filtered workflows divided by their number, rounded to one decimal place, and
0 for an empty filtered set; saving three workflows with step counts 2, 4, 6
and querying with no domain filter yields exactly 4. -/
theorem C5_avg_steps :
    (∀ (store : List Dict) (df : Option String),
      (get_analytics store df).avg_steps =
        if (filtered_workflows store df).isEmpty then 0
        else round1 ((((filtered_workflows store df).map stepsLen).sum : ℚ) /
          ((filtered_workflows store df).length : ℚ)))
    ∧ (get_analytics
        (store_after [(stepsEnvelope 2, "t1"), (stepsEnvelope 4, "t2"),
          (stepsEnvelope 6, "t3")] [])
        none).avg_steps = 4 := by
  constructor
  · intro store df
    show round1 (avg_steps_val (filtered_workflows store df)) = _
    rw [avg_steps_val]
    cases he : (filtered_workflows store df).isEmpty
    · simp only [Bool.false_eq_true, if_false]
    · simp only [if_true, round1, mul_zero, round_zero, Int.cast_zero, zero_div]
  · show round1 (avg_steps_val (store_after [(stepsEnvelope 2, "t1"),
      (stepsEnvelope 4, "t2"), (stepsEnvelope 6, "t3")] [])) = 4
    have hmap : ((store_after [(stepsEnvelope 2, "t1"), (stepsEnvelope 4, "t2"),
        (stepsEnvelope 6, "t3")] []).map stepsLen) = [2, 4, 6] := by decide
    have hlen : (store_after [(stepsEnvelope 2, "t1"), (stepsEnvelope 4, "t2"),
        (stepsEnvelope 6, "t3")] []).length = 3 := by decide
    have hemp : (store_after [(stepsEnvelope 2, "t1"), (stepsEnvelope 4, "t2"),
        (stepsEnvelope 6, "t3")] []).isEmpty = false := by decide
    rw [avg_steps_val, hemp, hmap, hlen]
    simp only [Bool.false_eq_true, if_false]
    have hq : ((([2, 4, 6] : List ℕ).sum : ℚ) / ((3 : ℕ) : ℚ)) = 4 := by norm_num
    rw [hq]
    have h40 : (10 : ℚ) * 4 = ((40 : ℤ) : ℚ) := by norm_num
    rw [round1, h40, round_intCast]
    norm_num

/-- C7: the classifier agrees everywhere with the spec's first-match rule
over the fixed priority table (so it is total and pure by construction); any
selector containing `name` resolves to `name` regardless of later keywords;
and the spec's concrete examples hold, including the empty string. -/
theorem C7_classify_priority :
    (∀ s : String, classify s = classifySpec s)
    ∧ (∀ s : String, containsSub "name".data (lowerChars s) = true → classify s = "name")
    ∧ classify "input#ownerName" = "name"
    ∧ classify "txtAddress1" = "address"
    ∧ classify "xyz" = "other"
    ∧ classify "" = "other" := by
  refine ⟨?_, ?_, by decide, by decide, by decide, by decide⟩
  · intro s
    unfold classify classifySpec classifyTable
    cases h1 : anyTermIn ["name", "applicant", "owner"] (lowerChars s) <;>
      cases h2 : anyTermIn ["address", "street", "property"] (lowerChars s) <;>
        cases h3 : anyTermIn ["phone", "tel", "mobile"] (lowerChars s) <;>
          cases h4 : anyTermIn ["email", "mail"] (lowerChars s) <;>
            cases h5 : anyTermIn ["permit", "type", "category"] (lowerChars s) <;>
              simp [List.find?, h1, h2, h3, h4, h5]
  · intro s h
    have h1 : anyTermIn ["name", "applicant", "owner"] (lowerChars s) = true := by
      simp [anyTermIn, h]
    unfold classify
    simp [h1]

/-- Witness for C7 at a concrete input: a selector containing both `name` and
`permit` resolves to `name` by priority. -/
theorem C7_classify_priority_witness :
    classify "namePermit" = "name" :=
  C7_classify_priority.2.1 "namePermit" (by decide)

/-- C9: the suggestion lookup returns exactly the two fixed email examples
for `email` and the empty list for `other`, and every response of the
suggestions route carries the constant metadata `confidence = 0.85` and
`source = "pattern_analysis"`. -/
theorem C9_suggestions_constants (data : Dict) :
    (get_ai_suggestions data).confidence = 0.85
    ∧ (get_ai_suggestions data).source = "pattern_analysis"
    ∧ suggestionsFor "email" = ["user@example.com", "contact@domain.com"]
    ∧ suggestionsFor "other" = [] := by
  exact ⟨rfl, rfl, by decide, by decide⟩
